import Mathlib

/-!
Verification of the Food Shop backend (`src/main.py`).

The service exposes CRUD-style endpoints over a single `product` collection
in a document store.  Pure parts of `main.py` (filter construction, response
normalization, endpoint control flow) are embedded directly.  The modules
`database.py` and `schemas.py` are imported by `main.py` but are not part of
the visible sources; their primitives (`db`, `create_document`,
`get_documents`, the `Product` schema) are modelled from the specification
text and are marked as such in their doc comments.
-/

namespace FoodShop

/-- A document-store value: Python/BSON scalars as they occur in this
service (strings, rationals standing for the numeric price, booleans,
null, store object identifiers, timestamps). -/
inductive BVal where
  | vStr (s : String)
  | vNum (q : ℚ)
  | vBool (b : Bool)
  | vNull
  | vId (n : Nat)
  | vTime (t : Nat)
deriving DecidableEq, Repr

/-- The text rendering Python `str(...)` produces for a stored value.
Object identifiers and timestamps render to a non-empty tagged decimal
form (standing in for the hex / ISO renderings, whose exact shape no
claim depends on). -/
def BVal.pyStr : BVal → String
  | .vStr s => s
  | .vNum q => toString q
  | .vBool true => "True"
  | .vBool false => "False"
  | .vNull => "None"
  | .vId n => "oid" ++ toString n
  | .vTime t => "ts" ++ toString t

/-- Python truthiness of a stored value (`if c:`): empty string, zero,
`False` and `None` are falsy. -/
def BVal.pyTruthy : BVal → Bool
  | .vStr s => !s.isEmpty
  | .vNum q => decide (q ≠ 0)
  | .vBool b => b
  | .vNull => false
  | .vId _ => true
  | .vTime _ => true

/-- A stored document: a Python dict, embedded as an association list from
field names to values (first binding of a key wins on lookup; the
operations below keep keys unique). -/
abbrev Doc := List (String × BVal)

/-- Dict lookup `d[k]` / `k in d`: the value bound to `k`, if any. -/
def getField : Doc → String → Option BVal
  | [], _ => none
  | kv :: rest, k => if kv.1 = k then some kv.2 else getField rest k

/-- Dict deletion (`d.pop(k, ...)` discarding the result): remove every
binding of `k`. -/
def dropKey : Doc → String → Doc
  | [], _ => []
  | kv :: rest, k => if kv.1 = k then dropKey rest k else kv :: dropKey rest k

/-- Dict update `d[k] = v`: bind `k` to `v`, replacing any previous
binding. -/
def setKey (d : Doc) (k : String) (v : BVal) : Doc :=
  dropKey d k ++ [(k, v)]

/-- Python truthiness of an optional string parameter (`if category:`):
`None` and the empty string are falsy. -/
def optTruthy : Option String → Bool
  | none => false
  | some s => !s.isEmpty

/-- Whether `needle` occurs at the head of `hay` (character-list leading
segment). -/
def leadsWith : List Char → List Char → Bool
  | [], _ => true
  | _ :: _, [] => false
  | a :: as, b :: bs => a == b && leadsWith as bs

/-- Whether `needle` occurs contiguously anywhere inside `hay`. -/
def occursIn (needle : List Char) : List Char → Bool
  | [] => leadsWith needle []
  | b :: bs => leadsWith needle (b :: bs) || occursIn needle bs

/-- Case-insensitive substring test used to model the store-side
`$regex .. $options "i"` search: the spec states the search is a
case-insensitive substring match. -/
def containsCI (needle hay : String) : Bool :=
  occursIn needle.toLower.data hay.toLower.data

/-- The claim-level notion of a case-insensitive occurrence: after
lowercasing, the character list of `needle` is a contiguous segment of the
character list of `hay`. -/
def AppearsCI (needle hay : String) : Prop :=
  ∃ pre post, hay.toLower.data = pre ++ needle.toLower.data ++ post

/-- Modelled from the spec: the `Product` shape defined in `schemas.py`
(title: non-empty text; description: text, optional; price: non-negative
numeric; category: text, optional; in_stock: boolean flag). -/
structure Product where
  title : String
  description : Option String
  price : ℚ
  category : Option String
  in_stock : Bool
deriving DecidableEq, Repr

/-- Structural validity of a Product payload per the data model: non-empty
title and non-negative price. -/
def Product.valid (p : Product) : Prop :=
  p.title ≠ "" ∧ 0 ≤ p.price

/-- Encoding of an optional text field into a stored value (Python `None`
becomes a stored null). -/
def encodeOptStr : Option String → BVal
  | none => .vNull
  | some s => .vStr s

/-- Modelled from the spec: the state behind the process-wide connection
handle of `database.py` — the `product` collection (a document list in
store iteration order), the next store-assigned identifier, the database
name, and the outcome the store gives to `list_collection_names` (an
exception being a possible outcome). -/
structure DB where
  name : String
  products : List Doc
  nextId : Nat
  collectionsResult : Except String (List String)
deriving Repr

/-- Modelled from the spec: the document `create_document` inserts for a
Product — its validated fields plus the store-assigned `_id`. -/
def docOfProduct (p : Product) (oid : Nat) : Doc :=
  [("_id", BVal.vId oid),
   ("title", BVal.vStr p.title),
   ("description", encodeOptStr p.description),
   ("price", BVal.vNum p.price),
   ("category", encodeOptStr p.category),
   ("in_stock", BVal.vBool p.in_stock)]

/-- Modelled from the spec: `create_document(collection, record)` of
`database.py` — inserts a validated record into the (sole) `product`
collection and returns the newly assigned identifier as text. -/
def create_document (db : DB) (p : Product) : DB × String :=
  ({ db with
      products := db.products ++ [docOfProduct p db.nextId],
      nextId := db.nextId + 1 },
   (BVal.vId db.nextId).pyStr)

/-- The filter dict built by `list_products` (`main.py` lines 35-44): an
optional equality condition on `category` and an optional case-insensitive
search condition over `title`/`description`. -/
structure Filter where
  category : Option String
  search : Option String
deriving DecidableEq, Repr

/-- Filter construction of `main.py` lines 35-44: the `category` key is
added only when the parameter is truthy (`if category:`), the `$or` search
pair only when `search` is truthy. -/
def buildFilter (category search : Option String) : Filter :=
  { category := cond (optTruthy category) category none,
    search := cond (optTruthy search) search none }

/-- Whether the named text field of a document matches the search string
case-insensitively; a missing or non-text field never matches. -/
def fieldMatchesCI (d : Doc) (k : String) (s : String) : Bool :=
  match getField d k with
  | some (BVal.vStr t) => containsCI s t
  | _ => false

/-- Modelled from the spec: whether a stored document satisfies the filter
— the conjunction of the equality condition on `category` (when present)
and the OR of the two case-insensitive matches on `title`/`description`
(when present). -/
def matchDoc (f : Filter) (d : Doc) : Bool :=
  (match f.category with
   | none => true
   | some c => decide (getField d "category" = some (BVal.vStr c))) &&
  (match f.search with
   | none => true
   | some s => fieldMatchesCI d "title" s || fieldMatchesCI d "description" s)

/-- Modelled from the spec: `get_documents(collection, filter, limit)` of
`database.py` — the stored records matching the filter, in store iteration
order, capped at `limit`. -/
def get_documents (db : DB) (f : Filter) (limit : Nat) : List Doc :=
  (db.products.filter (matchDoc f)).take limit

/-- First normalization step of `main.py` line 52: pop `_id` (defaulting
to the empty string) and re-add its text rendering under `id`. -/
def normIdStep (d : Doc) : Doc :=
  setKey (dropKey d "_id") "id"
    (BVal.vStr (((getField d "_id").getD (BVal.vStr "")).pyStr))

/-- Timestamp normalization step of `main.py` lines 54-57: when the key is
present, replace its value by its text rendering. -/
def normStamp (key : String) (d : Doc) : Doc :=
  match getField d key with
  | some v => setKey d key (BVal.vStr v.pyStr)
  | none => d

/-- Response normalization of `main.py` lines 49-58: pop `_id` and re-add
its text rendering under `id`; stringify `created_at` and `updated_at`
when present; leave everything else untouched. -/
def normalizeDoc (d : Doc) : Doc :=
  normStamp "updated_at" (normStamp "created_at" (normIdStep d))

/-- An HTTP error response: status code plus detail text (the shape
`HTTPException` carries). -/
structure ErrResp where
  status : Nat
  detail : String
deriving DecidableEq, Repr

/-- The fixed error every data-dependent endpoint raises when the
connection handle is null (`main.py` lines 32-33, 65-66, 76-77, 87-88). -/
def dbNotConfigured : ErrResp := ⟨500, "Database not configured"⟩

/-- The client error the framework produces for an out-of-range `limit`
query parameter (FastAPI rejects a failed `Query(100, ge=1, le=200)`
constraint with status 422 before the handler runs). -/
def limitRejected : ErrResp := ⟨422, "Input should be between 1 and 200"⟩

/-- Framework-level validation of the `limit` query parameter, from the
declaration `limit: int = Query(100, ge=1, le=200)` on `main.py` line 31:
default 100 when absent, rejected with a client error unless
1 <= limit <= 200. -/
def validateLimit : Option Int → Except ErrResp Int
  | none => .ok 100
  | some n => if 1 ≤ n ∧ n ≤ 200 then .ok n else .error limitRejected

/-- `GET /api/products` (`main.py` lines 30-60): validate `limit`, fail
fast when the handle is null, build the filter, fetch up to `limit`
matching documents, and normalize each. -/
def list_products (odb : Option DB) (category search : Option String)
    (limitParam : Option Int) : Except ErrResp (List Doc) :=
  match validateLimit limitParam with
  | .error e => .error e
  | .ok limit =>
    match odb with
    | none => .error dbNotConfigured
    | some db =>
      let docs := get_documents db (buildFilter category search) limit.toNat
      .ok (docs.map normalizeDoc)

/-- `POST /api/products` (`main.py` lines 63-71): fail fast when the
handle is null, otherwise insert the validated payload and return the new
store state together with the assigned id. -/
def create_product (odb : Option DB) (p : Product) :
    Except ErrResp (DB × String) :=
  match odb with
  | none => .error dbNotConfigured
  | some db => .ok (create_document db p)

/-- The string category values stored across all products (the values the
spec-modelled `distinct("category")` can surface as sortable candidates;
null and missing categories are dropped by the truthiness filter of
`main.py` line 80 in any case). -/
def categoryStrings (db : DB) : List String :=
  db.products.filterMap (fun d =>
    match getField d "category" with
    | some (BVal.vStr s) => some s
    | _ => none)

/-- Boolean lexicographic string order used for sorting (Python `sorted`
on strings). -/
def strLeB (a b : String) : Bool := decide (a ≤ b)

/-- `GET /api/categories` (`main.py` lines 74-82): the distinct stored
category values, truthy ones only (`if c`), sorted ascending. -/
def list_categories (odb : Option DB) : Except ErrResp (List String) :=
  match odb with
  | none => .error dbNotConfigured
  | some db =>
    .ok ((((categoryStrings db).dedup).filter
      (fun c => !c.isEmpty)).mergeSort strLeB)

/-- The fixed sample data of `main.py` lines 90-99. -/
def sample_products : List Product :=
  [⟨"Margherita Pizza", some "Classic pizza with tomato, mozzarella, and basil", 9.99, some "Pizza", true⟩,
   ⟨"Pepperoni Pizza", some "Pepperoni, mozzarella, tomato sauce", 11.49, some "Pizza", true⟩,
   ⟨"Veggie Burger", some "Plant-based patty with fresh veggies", 8.99, some "Burgers", true⟩,
   ⟨"Cheeseburger", some "Beef patty, cheese, lettuce, tomato", 10.49, some "Burgers", true⟩,
   ⟨"Chicken Caesar Salad", some "Grilled chicken with romaine and Caesar dressing", 7.99, some "Salads", true⟩,
   ⟨"Sushi Platter", some "Assorted rolls and nigiri", 14.99, some "Sushi", true⟩,
   ⟨"Pad Thai", some "Stir-fried rice noodles with tamarind sauce", 12.49, some "Asian", true⟩,
   ⟨"Chocolate Cake", some "Rich and moist chocolate cake slice", 4.99, some "Desserts", true⟩]

/-- Inserting a list of products one by one through `create_document`. -/
def insertAll (db : DB) (ps : List Product) : DB :=
  ps.foldl (fun d p => (create_document d p).1) db

/-- The result body of `POST /api/seed`: counts of inserted and total
records. -/
structure SeedResult where
  inserted : Nat
  total : Nat
deriving DecidableEq, Repr

/-- `POST /api/seed` (`main.py` lines 85-110): fail fast when the handle
is null; insert the 8 samples only when the collection is empty
(`count_documents({}) == 0`); report the inserted count and the total
count after the operation. -/
def seed_products (odb : Option DB) : Except ErrResp (DB × SeedResult) :=
  match odb with
  | none => .error dbNotConfigured
  | some db =>
    if db.products.length = 0 then
      let db2 := insertAll db sample_products
      .ok (db2, ⟨sample_products.length, db2.products.length⟩)
    else
      .ok (db, ⟨0, db.products.length⟩)

/-- The diagnostic body of `GET /test`: exactly the six fixed keys of
`main.py` lines 115-122. -/
structure TestResponse where
  backend : String
  database : String
  database_url : String
  database_name : String
  connection_status : String
  collections : List String
deriving DecidableEq, Repr

/-- `GET /test` (`main.py` lines 113-145): build the pessimistic base
response, upgrade it according to the handle and the outcome of
`list_collection_names` (catching the exception into the `database`
field, truncated to 50 characters), then overwrite the two env-var fields
from the environment. Total by construction: every store outcome yields a
response. -/
def test_database (odb : Option DB)
    (databaseUrlEnv databaseNameEnv : Option String) : TestResponse :=
  let base : TestResponse :=
    { backend := "✅ Running",
      database := "❌ Not Available",
      database_url := "",
      database_name := "",
      connection_status := "Not Connected",
      collections := [] }
  let r :=
    match odb with
    | some db =>
      let r1 := { base with
        database := "✅ Available",
        database_url := "✅ Configured",
        database_name := db.name,
        connection_status := "Connected" }
      match db.collectionsResult with
      | .ok cols =>
        { r1 with collections := cols.take 10,
                  database := "✅ Connected & Working" }
      | .error e =>
        { r1 with database := "⚠️  Connected but Error: " ++ e.take 50 }
    | none => { base with database := "⚠️  Available but not initialized" }
  { r with
      database_url := cond (optTruthy databaseUrlEnv) "✅ Set" "❌ Not Set",
      database_name := cond (optTruthy databaseNameEnv) "✅ Set" "❌ Not Set" }

/-- The claim-level search condition on a document: the search string
appears case-insensitively in the text of its title field or of its
description field. -/
def SearchHit (s : String) (d : Doc) : Prop :=
  (∃ t, getField d "title" = some (BVal.vStr t) ∧ AppearsCI s t) ∨
  (∃ t, getField d "description" = some (BVal.vStr t) ∧ AppearsCI s t)

/-- The document list carried by a successful `/api/products` response
(empty on error); used to state closed evaluations of the endpoint. -/
def okList : Except ErrResp (List Doc) → List Doc
  | .ok l => l
  | .error _ => []

/-- The string list carried by a successful `/api/categories` response
(empty on error). -/
def okListStr : Except ErrResp (List String) → List String
  | .ok l => l
  | .error _ => []

/-! ### Concrete fixtures used by witnesses and counterexamples -/

/-- A sample valid payload. -/
def exProduct : Product :=
  ⟨"Margherita Pizza", some "Classic pizza with tomato and basil", 10,
   some "Pizza", true⟩

/-- A store holding one product. -/
def exDB : DB := ⟨"foodshop", [docOfProduct exProduct 0], 1, .ok ["product"]⟩

/-- An empty store. -/
def exEmptyDB : DB := ⟨"foodshop", [], 0, .ok []⟩

/-- A store whose `list_collection_names` raises. -/
def exThrowingDB : DB := ⟨"foodshop", [], 0, .error "boom failure"⟩

/-- A store already holding 100 products titled `"A"`. -/
def exFullDB : DB :=
  ⟨"foodshop",
   (List.range 100).map (fun i => docOfProduct ⟨"A", none, 1, some "X", true⟩ i),
   100, .ok ["product"]⟩

/-- A payload distinguishable from the contents of `exFullDB`. -/
def exPayloadB : Product := ⟨"B", none, 1, some "X", true⟩

/-- A raw stored document carrying an identifier and a timestamp. -/
def exDocStamped : Doc :=
  [("_id", BVal.vId 7), ("title", BVal.vStr "T"), ("created_at", BVal.vTime 3)]

/-! ### Dictionary lemmas -/

theorem getField_dropKey_same (d : Doc) (k : String) :
    getField (dropKey d k) k = none := by
  induction d with
  | nil => rfl
  | cons kv rest ih =>
      by_cases h : kv.1 = k
      · simp [dropKey, h, ih]
      · simp [dropKey, getField, h, ih]

theorem getField_dropKey_ne (d : Doc) (k k2 : String) (h : k2 ≠ k) :
    getField (dropKey d k) k2 = getField d k2 := by
  induction d with
  | nil => rfl
  | cons kv rest ih =>
      by_cases hk : kv.1 = k
      · have hne : kv.1 ≠ k2 := fun hc => h (hc ▸ hk)
        simp [dropKey, getField, hk, hne, ih, Ne.symm h]
      · by_cases hk2 : kv.1 = k2
        · simp [dropKey, getField, hk, hk2, h]
        · simp [dropKey, getField, hk, hk2, ih, h]

theorem getField_append_none (d1 d2 : Doc) (k : String)
    (h : getField d1 k = none) :
    getField (d1 ++ d2) k = getField d2 k := by
  induction d1 with
  | nil => rfl
  | cons kv rest ih =>
      by_cases hk : kv.1 = k
      · simp [getField, hk] at h
      · simp only [getField, hk, if_false, List.cons_append,
          if_neg hk] at h ⊢
        exact ih h

theorem getField_append_some (d1 d2 : Doc) (k : String) (v : BVal)
    (h : getField d1 k = some v) :
    getField (d1 ++ d2) k = some v := by
  induction d1 with
  | nil => simp [getField] at h
  | cons kv rest ih =>
      by_cases hk : kv.1 = k
      · simp only [getField, if_pos hk, List.cons_append] at h ⊢
        exact h
      · simp only [getField, if_neg hk, List.cons_append] at h ⊢
        exact ih h

theorem getField_setKey_same (d : Doc) (k : String) (v : BVal) :
    getField (setKey d k v) k = some v := by
  unfold setKey
  rw [getField_append_none _ _ _ (getField_dropKey_same d k)]
  simp [getField]

theorem getField_setKey_ne (d : Doc) (k k2 : String) (v : BVal)
    (h : k2 ≠ k) :
    getField (setKey d k v) k2 = getField d k2 := by
  unfold setKey
  have hrest : getField d k2 = getField (dropKey d k) k2 :=
    (getField_dropKey_ne d k k2 h).symm
  rcases hf : getField (dropKey d k) k2 with _ | w
  · rw [getField_append_none _ _ _ hf, hrest, hf]
    simp [getField, Ne.symm h]
  · rw [getField_append_some _ _ _ _ hf, hrest, hf]

/-! ### Normalization lemmas -/

theorem getField_normStamp_ne (key : String) (d : Doc) (k : String)
    (h : k ≠ key) :
    getField (normStamp key d) k = getField d k := by
  unfold normStamp
  rcases hv : getField d key with _ | v
  · rfl
  · exact getField_setKey_ne _ _ _ _ h

theorem getField_normStamp_self (key : String) (d : Doc) :
    getField (normStamp key d) key =
      (getField d key).map (fun v => BVal.vStr v.pyStr) := by
  unfold normStamp
  rcases hv : getField d key with _ | v
  · simp [hv]
  · simp [getField_setKey_same]

theorem getField_normIdStep_id (d : Doc) :
    getField (normIdStep d) "id" =
      some (BVal.vStr (((getField d "_id").getD (BVal.vStr "")).pyStr)) :=
  getField_setKey_same _ _ _

theorem getField_normIdStep_oldId (d : Doc) :
    getField (normIdStep d) "_id" = none := by
  unfold normIdStep
  rw [getField_setKey_ne _ _ _ _ (by decide)]
  exact getField_dropKey_same d "_id"

theorem getField_normIdStep_ne (d : Doc) (k : String)
    (h1 : k ≠ "_id") (h2 : k ≠ "id") :
    getField (normIdStep d) k = getField d k := by
  unfold normIdStep
  rw [getField_setKey_ne _ _ _ _ h2]
  exact getField_dropKey_ne _ _ _ h1

theorem getField_normalizeDoc_frame (d : Doc) (k : String)
    (h1 : k ≠ "_id") (h2 : k ≠ "id") (h3 : k ≠ "created_at")
    (h4 : k ≠ "updated_at") :
    getField (normalizeDoc d) k = getField d k := by
  unfold normalizeDoc
  rw [getField_normStamp_ne _ _ _ h4, getField_normStamp_ne _ _ _ h3]
  exact getField_normIdStep_ne d k h1 h2

theorem getField_normalizeDoc_id (d : Doc) :
    getField (normalizeDoc d) "id" =
      some (BVal.vStr (((getField d "_id").getD (BVal.vStr "")).pyStr)) := by
  unfold normalizeDoc
  rw [getField_normStamp_ne _ _ _ (by decide),
    getField_normStamp_ne _ _ _ (by decide)]
  exact getField_normIdStep_id d

theorem getField_normalizeDoc_oldId (d : Doc) :
    getField (normalizeDoc d) "_id" = none := by
  unfold normalizeDoc
  rw [getField_normStamp_ne _ _ _ (by decide),
    getField_normStamp_ne _ _ _ (by decide)]
  exact getField_normIdStep_oldId d

theorem getField_normalizeDoc_created (d : Doc) :
    getField (normalizeDoc d) "created_at" =
      (getField d "created_at").map (fun v => BVal.vStr v.pyStr) := by
  unfold normalizeDoc
  rw [getField_normStamp_ne _ _ _ (by decide), getField_normStamp_self,
    getField_normIdStep_ne d _ (by decide) (by decide)]

theorem getField_normalizeDoc_updated (d : Doc) :
    getField (normalizeDoc d) "updated_at" =
      (getField d "updated_at").map (fun v => BVal.vStr v.pyStr) := by
  unfold normalizeDoc
  rw [getField_normStamp_self, getField_normStamp_ne _ _ _ (by decide),
    getField_normIdStep_ne d _ (by decide) (by decide)]

/-! ### Substring characterization -/

theorem leadsWith_iff (n h : List Char) :
    leadsWith n h = true ↔ ∃ post, h = n ++ post := by
  induction n generalizing h with
  | nil =>
      simp only [leadsWith, List.nil_append, true_iff]
      exact ⟨h, rfl⟩
  | cons a as ih =>
      cases h with
      | nil =>
          constructor
          · intro hfalse
            simp [leadsWith] at hfalse
          · rintro ⟨post, hpost⟩
            exact List.noConfusion hpost
      | cons b bs =>
          simp only [leadsWith, Bool.and_eq_true, beq_iff_eq, ih,
            List.cons_append, List.cons.injEq]
          constructor
          · rintro ⟨rfl, post, rfl⟩
            exact ⟨post, rfl, rfl⟩
          · rintro ⟨post, rfl, rfl⟩
            exact ⟨rfl, post, rfl⟩

theorem occursIn_iff (n h : List Char) :
    occursIn n h = true ↔ ∃ pre post, h = pre ++ n ++ post := by
  induction h with
  | nil =>
      simp only [occursIn, leadsWith_iff]
      constructor
      · rintro ⟨post, hpost⟩
        exact ⟨[], post, hpost⟩
      · rintro ⟨pre, post, hpost⟩
        rcases List.append_eq_nil.mp (List.append_eq_nil.mp hpost.symm).1
          with ⟨rfl, rfl⟩
        exact ⟨post, hpost⟩
  | cons b bs ih =>
      simp only [occursIn, Bool.or_eq_true, leadsWith_iff, ih]
      constructor
      · rintro (⟨post, hpost⟩ | ⟨pre, post, rfl⟩)
        · exact ⟨[], post, by simpa using hpost⟩
        · exact ⟨b :: pre, post, rfl⟩
      · rintro ⟨pre, post, heq⟩
        cases pre with
        | nil =>
            left
            exact ⟨post, by simpa using heq⟩
        | cons c cs =>
            right
            rw [List.cons_append, List.cons_append] at heq
            injection heq with hb hrest
            exact ⟨cs, post, hrest⟩

theorem containsCI_iff (needle hay : String) :
    containsCI needle hay = true ↔ AppearsCI needle hay :=
  occursIn_iff needle.toLower.data hay.toLower.data

/-! ### Filter and pipeline lemmas -/

theorem isEmpty_false_of_ne (s : String) (h : s ≠ "") :
    s.isEmpty = false := by
  cases he : s.isEmpty
  · rfl
  · exact absurd ((String.isEmpty_iff s).mp he) h

theorem buildFilter_components (category search : Option String) :
    buildFilter category search =
      ⟨cond (optTruthy category) category none,
       cond (optTruthy search) search none⟩ := rfl

theorem buildFilter_category_some (c : String) (hc : c ≠ "")
    (search : Option String) :
    (buildFilter (some c) search).category = some c := by
  simp [buildFilter, optTruthy, isEmpty_false_of_ne c hc]

theorem buildFilter_search_some (category : Option String) (s : String)
    (hs : s ≠ "") :
    (buildFilter category (some s)).search = some s := by
  simp [buildFilter, optTruthy, isEmpty_false_of_ne s hs]

theorem buildFilter_none_none : buildFilter none none = ⟨none, none⟩ := rfl

theorem buildFilter_none_search (s : String) (hs : s ≠ "") :
    buildFilter none (some s) = ⟨none, some s⟩ := by
  simp [buildFilter, optTruthy, isEmpty_false_of_ne s hs]

theorem fieldMatchesCI_iff (d : Doc) (k s : String) :
    fieldMatchesCI d k s = true ↔
      ∃ t, getField d k = some (BVal.vStr t) ∧ AppearsCI s t := by
  unfold fieldMatchesCI
  rcases hv : getField d k with _ | v
  · simp
  · cases v <;> simp [containsCI_iff]

theorem matchDoc_empty (d : Doc) : matchDoc ⟨none, none⟩ d = true := rfl

theorem matchDoc_category_of (f : Filter) (d : Doc) (c : String)
    (hf : f.category = some c) (h : matchDoc f d = true) :
    getField d "category" = some (BVal.vStr c) := by
  unfold matchDoc at h
  rw [hf] at h
  have h1 := ((Bool.and_eq_true _ _).mp h).1
  simpa using h1

theorem matchDoc_search_of (f : Filter) (d : Doc) (s : String)
    (hf : f.search = some s) (h : matchDoc f d = true) :
    SearchHit s d := by
  unfold matchDoc at h
  rw [hf] at h
  have h2 := ((Bool.and_eq_true _ _).mp h).2
  rcases (Bool.or_eq_true _ _).mp h2 with ht | hd
  · exact Or.inl ((fieldMatchesCI_iff d "title" s).mp ht)
  · exact Or.inr ((fieldMatchesCI_iff d "description" s).mp hd)

theorem matchDoc_of_searchHit (s : String) (d : Doc) (h : SearchHit s d) :
    matchDoc ⟨none, some s⟩ d = true := by
  unfold matchDoc
  rw [Bool.and_eq_true]
  refine ⟨rfl, ?_⟩
  rw [Bool.or_eq_true]
  rcases h with hT | hD
  · exact Or.inl ((fieldMatchesCI_iff d "title" s).mpr hT)
  · exact Or.inr ((fieldMatchesCI_iff d "description" s).mpr hD)

theorem validateLimit_none : validateLimit none = .ok 100 := rfl

theorem validateLimit_inRange (n : Int) (h1 : 1 ≤ n) (h2 : n ≤ 200) :
    validateLimit (some n) = .ok n := by
  show (if 1 ≤ n ∧ n ≤ 200 then Except.ok n else Except.error limitRejected)
    = Except.ok n
  rw [if_pos ⟨h1, h2⟩]

theorem validateLimit_outRange (n : Int) (h : n < 1 ∨ 200 < n) :
    validateLimit (some n) = .error limitRejected := by
  show (if 1 ≤ n ∧ n ≤ 200 then Except.ok n else Except.error limitRejected)
    = Except.error limitRejected
  rw [if_neg]
  rintro ⟨h1, h2⟩
  rcases h with h | h <;> omega

theorem list_products_eq (db : DB) (category search : Option String)
    (limitParam : Option Int) (limit : Int)
    (h : validateLimit limitParam = .ok limit) :
    list_products (some db) category search limitParam =
      .ok (((db.products.filter
        (matchDoc (buildFilter category search))).take limit.toNat).map
          normalizeDoc) := by
  unfold list_products
  rw [h]
  rfl

theorem list_products_error_of_invalid (odb : Option DB)
    (category search : Option String) (limitParam : Option Int)
    (e : ErrResp) (h : validateLimit limitParam = .error e) :
    list_products odb category search limitParam = .error e := by
  unfold list_products
  rw [h]

theorem create_document_length (db : DB) (p : Product) :
    ((create_document db p).1).products.length = db.products.length + 1 := by
  simp [create_document]

theorem insertAll_length (db : DB) (ps : List Product) :
    (insertAll db ps).products.length = db.products.length + ps.length := by
  induction ps generalizing db with
  | nil => rfl
  | cons p rest ih =>
      show (insertAll (create_document db p).1 rest).products.length = _
      rw [ih, create_document_length, List.length_cons]
      omega

theorem getField_docOfProduct_title (p : Product) (n : Nat) :
    getField (docOfProduct p n) "title" = some (BVal.vStr p.title) := by
  simp [getField, docOfProduct]

theorem getField_docOfProduct_description (p : Product) (n : Nat) :
    getField (docOfProduct p n) "description" =
      some (encodeOptStr p.description) := by
  simp [getField, docOfProduct]

theorem getField_docOfProduct_price (p : Product) (n : Nat) :
    getField (docOfProduct p n) "price" = some (BVal.vNum p.price) := by
  simp [getField, docOfProduct]

theorem getField_docOfProduct_category (p : Product) (n : Nat) :
    getField (docOfProduct p n) "category" =
      some (encodeOptStr p.category) := by
  simp [getField, docOfProduct]

theorem getField_docOfProduct_in_stock (p : Product) (n : Nat) :
    getField (docOfProduct p n) "in_stock" =
      some (BVal.vBool p.in_stock) := by
  simp [getField, docOfProduct]

theorem getField_docOfProduct_oldId (p : Product) (n : Nat) :
    getField (docOfProduct p n) "_id" = some (BVal.vId n) := by
  simp [getField, docOfProduct]

theorem pyStr_vId_ne_empty (n : Nat) : (BVal.vId n).pyStr ≠ "" := by
  show "oid" ++ toString n ≠ ""
  intro h
  have hdata : ("oid" ++ toString n).data = "".data := congrArg String.data h
  rw [String.data_append] at hdata
  exact List.noConfusion hdata

theorem ne_of_isEmpty_false (s : String) (h : s.isEmpty = false) :
    s ≠ "" := by
  intro he
  subst he
  exact Bool.noConfusion h

theorem seed_products_empty (db : DB) (h0 : db.products.length = 0) :
    seed_products (some db) =
      .ok (insertAll db sample_products,
        ⟨sample_products.length,
         (insertAll db sample_products).products.length⟩) := by
  simp only [seed_products]
  rw [if_pos h0]

theorem seed_products_nonempty (db : DB) (h0 : db.products.length ≠ 0) :
    seed_products (some db) = .ok (db, ⟨0, db.products.length⟩) := by
  simp only [seed_products]
  rw [if_neg h0]

theorem mem_pipeline (db : DB) (f : Filter) (n : Nat) (r : Doc)
    (h : r ∈ ((db.products.filter (matchDoc f)).take n).map normalizeDoc) :
    ∃ d, d ∈ db.products ∧ matchDoc f d = true ∧ r = normalizeDoc d := by
  rcases List.mem_map.mp h with ⟨d, hd, rfl⟩
  rcases List.mem_filter.mp (List.mem_of_mem_take hd) with ⟨hmem, hmatch⟩
  exact ⟨d, hmem, hmatch, rfl⟩

theorem searchHit_normalizeDoc (s : String) (d : Doc) (h : SearchHit s d) :
    SearchHit s (normalizeDoc d) := by
  rcases h with ⟨t, ht, ha⟩ | ⟨t, ht, ha⟩
  · refine Or.inl ⟨t, ?_, ha⟩
    rw [getField_normalizeDoc_frame d _ (by decide) (by decide) (by decide)
      (by decide)]
    exact ht
  · refine Or.inr ⟨t, ?_, ha⟩
    rw [getField_normalizeDoc_frame d _ (by decide) (by decide) (by decide)
      (by decide)]
    exact ht

theorem strLeB_trans (a b c : String) (hab : strLeB a b = true)
    (hbc : strLeB b c = true) : strLeB a c = true := by
  simp only [strLeB, decide_eq_true_eq] at hab hbc ⊢
  exact le_trans hab hbc

theorem strLeB_total (a b : String) : (strLeB a b || strLeB b a) = true := by
  simp only [strLeB, Bool.or_eq_true, decide_eq_true_eq]
  exact le_total a b

/-! ### Claim theorems -/

/-- C10: an empty `category` query parameter is falsy for the
`if category:` test of `main.py` line 36, so no category condition enters
the filter and the request behaves exactly like one with no category
parameter — returning records of every category. -/
theorem c10_empty_category_like_absent (odb : Option DB)
    (search : Option String) (limitParam : Option Int) :
    list_products odb (some "") search limitParam =
      list_products odb none search limitParam := rfl

/-- C5: when the connection handle is null, each data-dependent endpoint
(`GET /api/products`, `POST /api/products`, `GET /api/categories`,
`POST /api/seed`) returns this API's fixed store-unavailable error —
status 500 with detail "Database not configured" (the response the spec's
error taxonomy calls the service-unavailable condition) — as a value, not
an exception, and with no store to touch. -/
theorem c5_null_handle_fails_fast (category search : Option String)
    (p : Product) :
    list_products none category search none = .error dbNotConfigured ∧
    create_product none p = .error dbNotConfigured ∧
    list_categories none = .error dbNotConfigured ∧
    seed_products none = .error dbNotConfigured :=
  ⟨rfl, rfl, rfl, rfl⟩

/-- C4: `limit` handling — for 1 <= N <= 200 the response holds at most N
records; for N outside the range the request is rejected with the
framework's client error (status 422) identically for every store state,
hence before any store interaction; with `limit` omitted at most 100
records are returned. -/
theorem c4_limit_bounds (n : Int) (db : DB) (category search : Option String) :
    (1 ≤ n → n ≤ 200 →
      ∀ out, list_products (some db) category search (some n) = .ok out →
        (out.length : Int) ≤ n) ∧
    (n < 1 ∨ 200 < n →
      ∀ odb, list_products odb category search (some n) =
        .error limitRejected) ∧
    (∀ out, list_products (some db) category search none = .ok out →
      out.length ≤ 100) := by
  refine ⟨?_, ?_, ?_⟩
  · intro h1 h2 out hout
    rw [list_products_eq db category search (some n) n
      (validateLimit_inRange n h1 h2)] at hout
    injection hout with hout
    subst hout
    rw [List.length_map]
    calc ((List.take n.toNat _).length : Int)
        ≤ (n.toNat : Int) := by exact_mod_cast List.length_take_le n.toNat _
      _ = n := Int.toNat_of_nonneg (by omega)
  · intro h odb
    exact list_products_error_of_invalid odb category search (some n)
      limitRejected (validateLimit_outRange n h)
  · intro out hout
    rw [list_products_eq db category search none 100 validateLimit_none]
      at hout
    injection hout with hout
    subst hout
    rw [List.length_map]
    exact List.length_take_le _ _

/-- Witness for C4: a concrete in-range request on a one-product store is
capped by 5, and the out-of-range limit 300 is rejected even with no
store at all. -/
theorem c4_limit_bounds_witness :
    ((okList (list_products (some exDB) none none (some 5))).length : Int)
      ≤ 5 ∧
    list_products none none none (some 300) = .error limitRejected :=
  ⟨(c4_limit_bounds 5 exDB none none).1 (by decide) (by decide) _ rfl,
   (c4_limit_bounds 300 exDB none none).2.1 (Or.inr (by decide)) none⟩

/-- C3: seeding is idempotent — on an empty collection it inserts exactly
the 8 samples and reports inserted = 8 (and total 8); on a non-empty
collection it inserts nothing and reports inserted = 0 with the unchanged
count; across two successive calls the second reported total equals the
record count after the first call. -/
theorem c3_seed_idempotent (db : DB) :
    (db.products.length = 0 →
      ∃ db1, seed_products (some db) = .ok (db1, ⟨8, 8⟩) ∧
        db1.products.length = 8) ∧
    (db.products.length ≠ 0 →
      seed_products (some db) = .ok (db, ⟨0, db.products.length⟩)) ∧
    (∀ db1 r1 db2 r2,
      seed_products (some db) = .ok (db1, r1) →
      seed_products (some db1) = .ok (db2, r2) →
      r2.inserted = 0 ∧ r2.total = db1.products.length) := by
  have hinslen : (insertAll db sample_products).products.length =
      db.products.length + 8 := by
    rw [insertAll_length]
    rfl
  refine ⟨?_, ?_, ?_⟩
  · intro h0
    refine ⟨insertAll db sample_products, ?_, ?_⟩
    · rw [seed_products_empty db h0, hinslen, h0]
      rfl
    · rw [hinslen, h0]
  · intro h0
    exact seed_products_nonempty db h0
  · intro db1 r1 db2 r2 h1 h2
    have hne : db1.products.length ≠ 0 := by
      by_cases h0 : db.products.length = 0
      · rw [seed_products_empty db h0] at h1
        injection h1 with hpair
        rw [Prod.mk.injEq] at hpair
        rw [← hpair.1, hinslen, h0]
        omega
      · rw [seed_products_nonempty db h0] at h1
        injection h1 with hpair
        rw [Prod.mk.injEq] at hpair
        rw [← hpair.1]
        exact h0
    rw [seed_products_nonempty db1 hne] at h2
    injection h2 with hpair
    rw [Prod.mk.injEq] at hpair
    rw [← hpair.2]
    exact ⟨rfl, rfl⟩

/-- Witness for C3 on the concrete empty store. -/
theorem c3_seed_idempotent_witness :
    ∃ db1, seed_products (some exEmptyDB) = .ok (db1, ⟨8, 8⟩) ∧
      db1.products.length = 8 :=
  (c3_seed_idempotent exEmptyDB).1 rfl

/-- C6: the categories response contains no empty string, no duplicates,
is sorted ascending in lexicographic string order, and holds exactly the
non-empty category values stored across all products. -/
theorem c6_categories_sorted_distinct (db : DB) (cats : List String)
    (hout : list_categories (some db) = .ok cats) :
    (∀ c ∈ cats, c ≠ "") ∧ cats.Nodup ∧ cats.Sorted (· ≤ ·) ∧
    (∀ c, c ∈ cats ↔ c ≠ "" ∧ c ∈ categoryStrings db) := by
  have hcats : cats = (((categoryStrings db).dedup).filter
      (fun c => !c.isEmpty)).mergeSort strLeB := by
    simp only [list_categories] at hout
    injection hout with h
    exact h.symm
  subst hcats
  refine ⟨?_, ?_, ?_, ?_⟩
  · intro c hc
    rcases List.mem_filter.mp (List.mem_mergeSort.mp hc) with ⟨_, htruthy⟩
    rw [Bool.not_eq_true'] at htruthy
    exact ne_of_isEmpty_false c htruthy
  · exact (List.mergeSort_perm _ strLeB).nodup_iff.mpr
      (List.Nodup.filter _ (List.nodup_dedup _))
  · exact (List.sorted_mergeSort strLeB_trans strLeB_total _).imp
      (fun h => of_decide_eq_true h)
  · intro c
    rw [List.mem_mergeSort, List.mem_filter, List.mem_dedup]
    constructor
    · rintro ⟨hmem, htruthy⟩
      rw [Bool.not_eq_true'] at htruthy
      exact ⟨ne_of_isEmpty_false c htruthy, hmem⟩
    · rintro ⟨hne, hmem⟩
      refine ⟨hmem, ?_⟩
      rw [Bool.not_eq_true', isEmpty_false_of_ne c hne]

/-- Witness for C6 on the concrete one-product store. -/
theorem c6_categories_sorted_distinct_witness :
    (∀ c ∈ okListStr (list_categories (some exDB)), c ≠ "") ∧
    (okListStr (list_categories (some exDB))).Nodup ∧
    (okListStr (list_categories (some exDB))).Sorted (· ≤ ·) ∧
    (∀ c, c ∈ okListStr (list_categories (some exDB)) ↔
      c ≠ "" ∧ c ∈ categoryStrings exDB) :=
  c6_categories_sorted_distinct exDB _ rfl

/-- C7: with a non-empty `category=c` every returned record's category
field equals `c` exactly; and when a non-empty `search=s` is also given
the two conditions are combined conjunctively — every returned record
satisfies both the category equality and the search condition. -/
theorem c7_category_exact (db : DB) (c : String) (hc : c ≠ "")
    (search : Option String) (limitParam : Option Int) (out : List Doc)
    (hout : list_products (some db) (some c) search limitParam = .ok out) :
    (∀ r ∈ out, getField r "category" = some (BVal.vStr c)) ∧
    (∀ s, s ≠ "" → search = some s → ∀ r ∈ out,
      getField r "category" = some (BVal.vStr c) ∧ SearchHit s r) := by
  rcases hv : validateLimit limitParam with e | limit
  · rw [list_products_error_of_invalid _ _ _ _ _ hv] at hout
    exact Except.noConfusion hout
  · rw [list_products_eq db _ _ _ _ hv] at hout
    injection hout with hout
    subst hout
    have hcat : ∀ r ∈ ((db.products.filter
        (matchDoc (buildFilter (some c) search))).take limit.toNat).map
          normalizeDoc,
        getField r "category" = some (BVal.vStr c) := by
      intro r hr
      rcases mem_pipeline db _ _ r hr with ⟨d, _, hmatch, rfl⟩
      rw [getField_normalizeDoc_frame d _ (by decide) (by decide) (by decide)
        (by decide)]
      exact matchDoc_category_of _ d c (buildFilter_category_some c hc search)
        hmatch
    refine ⟨hcat, ?_⟩
    rintro s hs rfl r hr
    refine ⟨hcat r hr, ?_⟩
    rcases mem_pipeline db _ _ r hr with ⟨d, _, hmatch, rfl⟩
    exact searchHit_normalizeDoc s d (matchDoc_search_of _ d s
      (buildFilter_search_some (some c) s hs) hmatch)

/-- Witness for C7 on the concrete one-product store with category
`"Pizza"` and search `"pizza"`. -/
theorem c7_category_exact_witness :
    (∀ r ∈ okList (list_products (some exDB) (some "Pizza") (some "pizza")
        none),
      getField r "category" = some (BVal.vStr "Pizza")) ∧
    (∀ s, s ≠ "" → (some "pizza" : Option String) = some s →
      ∀ r ∈ okList (list_products (some exDB) (some "Pizza") (some "pizza")
          none),
        getField r "category" = some (BVal.vStr "Pizza") ∧ SearchHit s r) :=
  c7_category_exact exDB "Pizza" (by decide) (some "pizza") none _ rfl

/-- C2: search soundness and completeness — every record returned for a
non-empty `search=s` (no category filter, default limit) carries `s` as a
case-insensitive substring of its title or of its description, and, as
long as the matching records fit under the limit cap of 100, every stored
record with such an occurrence is returned (normalized). -/
theorem c2_search_matches (db : DB) (s : String) (hs : s ≠ "")
    (out : List Doc)
    (hout : list_products (some db) none (some s) none = .ok out) :
    (∀ r ∈ out, SearchHit s r) ∧
    ((db.products.filter (matchDoc ⟨none, some s⟩)).length ≤ 100 →
      ∀ d ∈ db.products, SearchHit s d → normalizeDoc d ∈ out) := by
  rw [list_products_eq db none (some s) none 100 validateLimit_none,
    buildFilter_none_search s hs] at hout
  injection hout with hout
  subst hout
  constructor
  · intro r hr
    rcases mem_pipeline db _ _ r hr with ⟨d, _, hmatch, rfl⟩
    exact searchHit_normalizeDoc s d (matchDoc_search_of _ d s rfl hmatch)
  · intro hlen d hd hhit
    have hmem : d ∈ db.products.filter (matchDoc ⟨none, some s⟩) :=
      List.mem_filter.mpr ⟨hd, matchDoc_of_searchHit s d hhit⟩
    have h100 : ((100 : Int).toNat) = 100 := rfl
    rw [h100, List.take_of_length_le hlen]
    exact List.mem_map_of_mem normalizeDoc hmem

/-- Witness for C2: searching `"pizza"` on the concrete one-product store
returns only case-insensitive matches, and completeness holds under the
cap. -/
theorem c2_search_matches_witness :
    (∀ r ∈ okList (list_products (some exDB) none (some "pizza") none),
      SearchHit "pizza" r) ∧
    ((exDB.products.filter (matchDoc ⟨none, some "pizza"⟩)).length ≤ 100 →
      ∀ d ∈ exDB.products, SearchHit "pizza" d →
        normalizeDoc d ∈ okList (list_products (some exDB) none
          (some "pizza") none)) :=
  c2_search_matches exDB "pizza" (by decide) _ rfl

/-- C8: response normalization — the store-native `_id` field is removed
and re-added as text under `id`; `created_at` and `updated_at` are
converted to text exactly when present (untouched, i.e. still absent,
otherwise); and every other field passes through unchanged. -/
theorem c8_normalization_frame (d : Doc) :
    getField (normalizeDoc d) "_id" = none ∧
    (∀ v, getField d "_id" = some v →
      getField (normalizeDoc d) "id" = some (BVal.vStr v.pyStr)) ∧
    getField (normalizeDoc d) "created_at" =
      (getField d "created_at").map (fun v => BVal.vStr v.pyStr) ∧
    getField (normalizeDoc d) "updated_at" =
      (getField d "updated_at").map (fun v => BVal.vStr v.pyStr) ∧
    (∀ k, k ≠ "_id" → k ≠ "id" → k ≠ "created_at" → k ≠ "updated_at" →
      getField (normalizeDoc d) k = getField d k) := by
  refine ⟨getField_normalizeDoc_oldId d, ?_, getField_normalizeDoc_created d,
    getField_normalizeDoc_updated d, ?_⟩
  · intro v hv
    rw [getField_normalizeDoc_id d, hv]
    rfl
  · intro k h1 h2 h3 h4
    exact getField_normalizeDoc_frame d k h1 h2 h3 h4

/-- Witness for C8 on a concrete stored document with an identifier and a
timestamp. -/
theorem c8_normalization_frame_witness :
    getField (normalizeDoc exDocStamped) "id" =
      some (BVal.vStr (BVal.vId 7).pyStr) ∧
    getField (normalizeDoc exDocStamped) "title" =
      getField exDocStamped "title" :=
  ⟨(c8_normalization_frame exDocStamped).2.1 (BVal.vId 7) rfl,
   (c8_normalization_frame exDocStamped).2.2.2.2 "title" (by decide)
     (by decide) (by decide) (by decide)⟩

/-- C9: `GET /test` is total — it returns a `TestResponse` (a record with
exactly the six fixed keys) for every store state; the collections entry
never exceeds 10 names; and when the store throws on
`list_collection_names`, the exception text is surfaced (truncated to 50
characters) inside the `database` field of the body. -/
theorem c9_test_endpoint_total (odb : Option DB)
    (urlEnv nameEnv : Option String) :
    (test_database odb urlEnv nameEnv).collections.length ≤ 10 ∧
    (∀ db e, odb = some db → db.collectionsResult = .error e →
      (test_database odb urlEnv nameEnv).database =
        "⚠️  Connected but Error: " ++ e.take 50) := by
  constructor
  · rcases odb with _ | db
    · simp [test_database]
    · rcases hc : db.collectionsResult with e | cols
      · simp [test_database, hc]
      · simp only [test_database, hc]
        exact List.length_take_le 10 cols
  · rintro db e rfl he
    simp [test_database, he]

/-- Witness for C9 on a concrete store whose collection listing throws. -/
theorem c9_test_endpoint_total_witness :
    (test_database (some exThrowingDB) none none).collections.length ≤ 10 ∧
    (test_database (some exThrowingDB) none none).database =
      "⚠️  Connected but Error: " ++ "boom failure".take 50 :=
  ⟨(c9_test_endpoint_total (some exThrowingDB) none none).1,
   (c9_test_endpoint_total (some exThrowingDB) none none).2 exThrowingDB
     "boom failure" rfl rfl⟩

/-- C1 is refuted as universally stated: on a store already holding 100
records, POST of a fresh valid payload (title "B") followed by an
unfiltered GET (default limit 100) returns 100 records, none of which
carries the payload's title — so no returned record has field values
equal to the input. -/
theorem c1_roundtrip_counterexample :
    exPayloadB.valid ∧
    (okList (list_products (some (create_document exFullDB exPayloadB).1)
        none none none)).length = 100 ∧
    ((okList (list_products (some (create_document exFullDB exPayloadB).1)
        none none none)).all
      (fun r => getField r "title" != some (BVal.vStr "B"))) = true := by
  refine ⟨⟨by decide, by decide⟩, ?_, ?_⟩
  · decide
  · decide

/-- C1 (amended): provided the store holds fewer than 100 records before
the insertion (so the default limit cap cannot drop the new record),
POST of a valid payload followed by an unfiltered GET yields a returned
record whose title, description, price, category and in_stock fields
equal the input payload's and whose id is a non-empty string. -/
theorem c1_roundtrip_under_cap (db : DB) (p : Product) (hv : p.valid)
    (hcap : db.products.length < 100) :
    ∃ db1 newId out r,
      create_product (some db) p = .ok (db1, newId) ∧
      list_products (some db1) none none none = .ok out ∧
      r ∈ out ∧
      getField r "title" = some (BVal.vStr p.title) ∧
      getField r "description" = some (encodeOptStr p.description) ∧
      getField r "price" = some (BVal.vNum p.price) ∧
      getField r "category" = some (encodeOptStr p.category) ∧
      getField r "in_stock" = some (BVal.vBool p.in_stock) ∧
      ∃ idStr, getField r "id" = some (BVal.vStr idStr) ∧ idStr ≠ "" := by
  refine ⟨(create_document db p).1, (create_document db p).2,
    ((create_document db p).1.products.map normalizeDoc),
    normalizeDoc (docOfProduct p db.nextId), rfl, ?_, ?_, ?_, ?_, ?_, ?_,
    ?_, ?_⟩
  · have hfilter : (create_document db p).1.products.filter
        (matchDoc (buildFilter none none)) =
        (create_document db p).1.products :=
      List.filter_eq_self.mpr (fun d _ => matchDoc_empty d)
    have h100 : ((100 : Int).toNat) = 100 := rfl
    have hlen : (create_document db p).1.products.length ≤
        (100 : Int).toNat := by
      rw [create_document_length, h100]
      omega
    rw [list_products_eq _ none none none 100 validateLimit_none, hfilter,
      List.take_of_length_le hlen]
  · refine List.mem_map_of_mem normalizeDoc ?_
    show docOfProduct p db.nextId ∈ db.products ++ [docOfProduct p db.nextId]
    exact List.mem_append_right _ (List.mem_singleton.mpr rfl)
  · rw [getField_normalizeDoc_frame _ _ (by decide) (by decide) (by decide)
      (by decide)]
    exact getField_docOfProduct_title p db.nextId
  · rw [getField_normalizeDoc_frame _ _ (by decide) (by decide) (by decide)
      (by decide)]
    exact getField_docOfProduct_description p db.nextId
  · rw [getField_normalizeDoc_frame _ _ (by decide) (by decide) (by decide)
      (by decide)]
    exact getField_docOfProduct_price p db.nextId
  · rw [getField_normalizeDoc_frame _ _ (by decide) (by decide) (by decide)
      (by decide)]
    exact getField_docOfProduct_category p db.nextId
  · rw [getField_normalizeDoc_frame _ _ (by decide) (by decide) (by decide)
      (by decide)]
    exact getField_docOfProduct_in_stock p db.nextId
  · refine ⟨(BVal.vId db.nextId).pyStr, ?_, pyStr_vId_ne_empty db.nextId⟩
    rw [getField_normalizeDoc_id, getField_docOfProduct_oldId]
    rfl

/-- Witness for the amended C1 on the concrete empty store. -/
theorem c1_roundtrip_under_cap_witness :
    exProduct.valid ∧ exEmptyDB.products.length < 100 ∧
    (∃ db1 newId out r,
      create_product (some exEmptyDB) exProduct = .ok (db1, newId) ∧
      list_products (some db1) none none none = .ok out ∧
      r ∈ out ∧
      getField r "title" = some (BVal.vStr exProduct.title) ∧
      getField r "description" = some (encodeOptStr exProduct.description) ∧
      getField r "price" = some (BVal.vNum exProduct.price) ∧
      getField r "category" = some (encodeOptStr exProduct.category) ∧
      getField r "in_stock" = some (BVal.vBool exProduct.in_stock) ∧
      ∃ idStr, getField r "id" = some (BVal.vStr idStr) ∧ idStr ≠ "") :=
  ⟨⟨by decide, by decide⟩, by decide,
   c1_roundtrip_under_cap exEmptyDB exProduct ⟨by decide, by decide⟩
     (by decide)⟩

end FoodShop
